import Mathlib

/-!
# Verification of the CircuitSeq weekly capacity-bounded sample allocation server

Shallow embedding of `src/backend/src/circuit_seq_server/app.py` and of the
model-layer operations it imports from `circuit_seq_server.model` and
`circuit_seq_server.date_utils` (those two modules are not part of the source
tree; where a definition embeds them it is modelled from the specification and
its doc comment says so).

Conventions of the embedding:
* Python `datetime.date` values are modelled by `Date`: a linear timestamp `t`
  for ordering plus the ISO-calendar fields `isoYear`/`isoWeek` that Python's
  `date.isocalendar()` would return for it (the ISO calendar arithmetic itself
  is the standard library's, not this repository's code).
* Flask responses are modelled by the inductive `Response`; a body returned
  together with an HTTP status code `c` becomes `Response.error body c`,
  a plain 200 body becomes one of the `ok…` constructors.
* The SQLAlchemy session is modelled by a list of committed `Sample` rows;
  `scalar_one_or_none` over a filter becomes `List.find?` of the predicate.
-/

namespace CircuitSeq

/-- Plate geometry settings, as read by `get_current_settings()` in
`app.py` (`plate_n_rows`, `plate_n_cols`). -/
structure Settings where
  plate_n_rows : Nat
  plate_n_cols : Nat
deriving Repr, DecidableEq

/-- Weekly capacity: plate rows × plate columns (spec §2 “Capacity”). -/
def capacity (s : Settings) : Nat :=
  s.plate_n_rows * s.plate_n_cols

/-- A calendar date: `t` is a linear timestamp used for order comparisons
(`Sample.date >= start_of_week` in `app.py`), and `isoYear`/`isoWeek` are the
first two components of Python's `date.isocalendar()` for that date. -/
structure Date where
  t : Int
  isoYear : Nat
  isoWeek : Nat
deriving Repr, DecidableEq

/-- The ISO (year, week) bucket of a date — spec §4.1 `bucketFor`. -/
def bucketFor (d : Date) : Nat × Nat :=
  (d.isoYear, d.isoWeek)

/-- A committed sample row of the `Sample` table.  Fields `primary_key`,
`email`, `name`, `date`, `reference_sequence_description` are the columns
`app.py` reads; `ordinal` is the sample's 1-based ordinal within its week
bucket (spec §3 `ordinalInWeek`; the column lives in the model module that is
not under the source tree). -/
structure Sample where
  primary_key : String
  email : String
  name : String
  date : Date
  ordinal : Nat
  reference_sequence_description : Option String
deriving Repr, DecidableEq

/-- Whether a sample row belongs to the given ISO week bucket. -/
def inWeek (s : Sample) (w : Nat × Nat) : Bool :=
  bucketFor s.date == w

/-- Count of committed samples in a week bucket — embeds
`count_samples_this_week` from the model module, generalised over the bucket
(spec §4.4 `countInWeek`). -/
def count_samples_in_week (samples : List Sample) (w : Nat × Nat) : Nat :=
  (samples.filter (fun s => inWeek s w)).length

/-- Left-pad the decimal representation of `n` with zeros to `width`. -/
def zeroPad (width : Nat) (n : Nat) : String :=
  let s := toString n
  String.mk (List.replicate (width - s.length) '0') ++ s

/-- Modelled from the spec: the Identifier Generator (§4.3) of the model
module (not under the source tree): the primary key is a pure function of
`(isoYear, isoWeek, ordinal)`, zero-padded fixed-width fields
`YYYY-WW-NNN` as in the spec's example key `2024-05-001`. -/
def generate (isoYear isoWeek ordinal : Nat) : String :=
  zeroPad 4 isoYear ++ "-" ++ zeroPad 2 isoWeek ++ "-" ++ zeroPad 3 ordinal

/-- A registered user row, with the columns `app.py` reads. -/
structure User where
  email : String
  password : String
  activated : Bool
  is_admin : Bool
deriving Repr, DecidableEq

/-- Server-side persistent state seen by the handlers: the committed `Sample`
rows and the current settings. -/
structure ServerState where
  samples : List Sample
  settings : Settings
deriving Repr, DecidableEq

/-- Outcome of one submission — the spec's terminal states (§4.6). -/
inductive SubmitResult where
  | accepted (s : Sample)
  | rejectedInvalid
  | rejectedCapacity
  | failedStorage (s : Sample)
deriving Repr, DecidableEq

/-- A submission outcome that persisted a sample row (metadata committed):
`accepted`, or `failedStorage` (the slot is consumed, only the file write
failed — spec §4.6 step 4). -/
def isCommitted : SubmitResult → Bool
  | .accepted _ => true
  | .failedStorage _ => true
  | _ => false

/-- The sample row built by a committed submission: key from the Identifier
Generator, ordinal within the week, description set when a file was supplied
and stored. -/
def newSample (email sampleName : String) (file : Option Bool) (now : Date)
    (ordinal : Nat) : Sample :=
  { primary_key := generate now.isoYear now.isoWeek ordinal
    email := email
    name := sampleName
    date := now
    ordinal := ordinal
    reference_sequence_description :=
      if file = some true then some sampleName else none }

/-- Modelled from the spec: `add_new_sample` of the model module (not under
the source tree), i.e. the Submission Orchestrator §4.6 with the Capacity
Allocator §4.2 inlined: validate owner and name non-empty; compute the week
bucket of `now`; read the current settings; reject when
`count ≥ plateRows*plateCols`; otherwise commit the sample with ordinal
`count+1` and key `generate …`; then store the optional file
(`file = some ok` means a file was supplied and its write succeeds iff `ok`;
a failed write leaves the metadata committed). -/
def submit (st : ServerState) (email name : String) (file : Option Bool)
    (now : Date) : SubmitResult × ServerState :=
  if email = "" ∨ name = "" then (.rejectedInvalid, st)
  else
    let w := bucketFor now
    let c := count_samples_in_week st.samples w
    if capacity st.settings ≤ c then (.rejectedCapacity, st)
    else
      let s : Sample := newSample email name file now (c + 1)
      let st' : ServerState := { st with samples := s :: st.samples }
      match file with
      | none => (.accepted s, st')
      | some ok => if ok then (.accepted s, st') else (.failedStorage s, st')

/-- Modelled from the spec: `set_current_settings` of the model module (not
under the source tree): an administrator action replacing the current
settings version (§3 Settings). -/
def set_current_settings (st : ServerState) (s : Settings) : ServerState :=
  { st with settings := s }

/-- The `/remaining` endpoint body (`app.py` lines 88–94):
`plate_n_rows * plate_n_cols - count_samples_this_week()`, a plain integer
difference. -/
def remaining (st : ServerState) (now : Date) : Int :=
  (capacity st.settings : Int)
    - (count_samples_in_week st.samples (bucketFor now) : Int)

/-- A Flask response as the handlers of `app.py` produce it: a 200 payload
(one `ok…` constructor per distinct success shape) or a body returned with an
explicit HTTP status code. -/
inductive Response where
  | okSample (s : Sample)
  | okMsg (msg : String)
  | okFile (bytes : String)
  | okLists (current previous : List Sample)
  | okSettings (s : Settings)
  | okUsers (emails : List String)
  | okLogin (email : String)
  | error (body : String) (status : Nat)
deriving Repr, DecidableEq

/-- The HTTP status of a response when it is an error response. -/
def errStatus : Response → Option Nat
  | .error _ c => some c
  | _ => none

/-- The `/login` handler (`app.py` lines 56–75).  `check_password` of the
model module (not under the source tree) is modelled as comparison with the
stored credential. -/
def login (users : List User) (email password : String) : Response :=
  match users.find? (fun u => u.email == email) with
  | none => .error "Unknown email address" 401
  | some u =>
    if !u.activated then .error "User account is not yet activated" 401
    else if !(u.password == password) then .error "Incorrect password" 401
    else .okLogin u.email

/-- The `/signup` handler (`app.py` lines 77–86); `add_new_user` of the model
module (not under the source tree) is abstracted by its boolean outcome. -/
def signup (add_new_user_succeeded : Bool) : Response :=
  if add_new_user_succeeded then .okMsg "success"
  else .error "Signup failed" 401

/-- The `/addsample` handler boundary (`app.py` lines 157–168): the response
built from the value `add_new_sample` returned. -/
def add_sample_handler (new_sample : Option Sample) : Response :=
  match new_sample with
  | some s => .okSample s
  | none => .error "No more samples available this week." 401

/-- Modelled from the spec where it leaves `app.py`: `add_new_sample` of the
model module returns the new sample on a committed submission and `None`
otherwise (the handler only tests `is not None`), here obtained from
`submit`. -/
def add_new_sample (st : ServerState) (email name : String)
    (file : Option Bool) (now : Date) : Option Sample × ServerState :=
  match submit st email name file now with
  | (.accepted s, st') => (some s, st')
  | (.failedStorage _, st') => (none, st')
  | (_, st') => (none, st')

/-- The `/addsample` route end to end: handler applied to the outcome of
`add_new_sample` (`app.py` lines 157–168). -/
def add_sample_route (st : ServerState) (email name : String)
    (file : Option Bool) (now : Date) : Response :=
  add_sample_handler (add_new_sample st email name file now).1

/-- The fasta path built by the `/reference_sequence` handler (`app.py`
line 148–149): `data_path/year/week/reference/primary_key_name.fasta` with
`year, week` from `sample.date.isocalendar()`. -/
def reference_filename (data_path : String) (s : Sample) : String :=
  data_path ++ "/" ++ toString s.date.isoYear ++ "/" ++ toString s.date.isoWeek
    ++ "/reference/" ++ s.primary_key ++ "_" ++ s.name ++ ".fasta"

/-- The spec's file path convention, from its words (§6): reference files live
at `{dataRoot}/{isoYear}/{isoWeek}/reference/{primaryKey}_{name}.fasta`. -/
def specReferencePath (dataRoot : String) (isoYear isoWeek : Nat)
    (primaryKey sampleName : String) : String :=
  dataRoot ++ "/" ++ toString isoYear ++ "/" ++ toString isoWeek
    ++ "/reference/" ++ primaryKey ++ "_" ++ sampleName ++ ".fasta"

/-- The sample lookup of the `/reference_sequence` handler (`app.py` lines
131–136): filter by `primary_key`, and additionally by the caller's `email`
unless the caller is an admin; `scalar_one_or_none` over committed rows. -/
def lookupSample (samples : List Sample) (primary_key callerEmail : String)
    (is_admin : Bool) : Option Sample :=
  samples.find? (fun s =>
    s.primary_key == primary_key && (is_admin || s.email == callerEmail))

/-- The files present on disk: association list from path to bytes. -/
def DiskFiles := List (String × String)

/-- The `/reference_sequence` handler (`app.py` lines 124–155): find the
sample under the caller's visibility, require its reference-sequence
description to be set, require the fasta file to exist at the conventional
path, then serve the file; each failure is a distinct 401 error. -/
def reference_sequence (data_path : String) (samples : List Sample)
    (files : DiskFiles) (caller : User) (primary_key : String) : Response :=
  match lookupSample samples primary_key caller.email caller.is_admin with
  | none => .error "Sample not found" 401
  | some user_sample =>
    match user_sample.reference_sequence_description with
    | none => .error "Sample does not contain a reference sequence" 401
    | some _ =>
      match files.lookup (reference_filename data_path user_sample) with
      | none => .error "Fasta file not found" 401
      | some bytes => .okFile bytes

/-- Descending order on sample dates, the `order_by(db.desc("date"))` of the
`/samples` queries. -/
def dateDesc (a b : Sample) : Prop :=
  b.date.t ≤ a.date.t

instance : DecidableRel dateDesc := fun a b => by
  unfold dateDesc; infer_instance

/-- The `/samples` handler (`app.py` lines 96–122): the caller's samples with
`date >= start_of_week` and those with `date < start_of_week`, each ordered
by descending date.  `get_start_of_week` lives in `date_utils` (not under the
source tree); the start-of-week instant is passed in. -/
def samples_handler (allSamples : List Sample) (callerEmail : String)
    (startOfWeek : Int) : List Sample × List Sample :=
  ( List.insertionSort dateDesc
      (allSamples.filter
        (fun s => s.email == callerEmail && startOfWeek ≤ s.date.t)),
    List.insertionSort dateDesc
      (allSamples.filter
        (fun s => s.email == callerEmail && s.date.t < startOfWeek)) )

/-- The `/admin/settings` handler (`app.py` lines 170–181).  `none` is the
absence of a return value: on a POST whose `set_current_settings` call fails,
the code builds `jsonify(message="Failed to update settings"), 401` but does
not return it, and control falls off the end of the function. -/
def admin_settings (st : ServerState) (caller : User) (isPost : Bool)
    (set_settings_succeeded : Bool) : Option Response :=
  if !caller.is_admin then some (.error "Admin account required" 401)
  else if isPost then
    if set_settings_succeeded then some (.okMsg "Settings updated.")
    else none
  else some (.okSettings st.settings)

/-- The `/admin/allusers` handler (`app.py` lines 212–218). -/
def admin_all_users (users : List User) (caller : User) : Response :=
  if caller.is_admin then .okUsers (users.map (fun u => u.email))
  else .error "Admin account required" 401

/-- The `/admin/allsamples` handler (`app.py` lines 183–210). -/
def admin_all_samples (allSamples : List Sample) (caller : User)
    (startOfWeek : Int) : Response :=
  if !caller.is_admin then .error "Admin account required" 401
  else
    .okLists
      (List.insertionSort dateDesc
        (allSamples.filter (fun s => startOfWeek ≤ s.date.t)))
      (List.insertionSort dateDesc
        (allSamples.filter (fun s => s.date.t < startOfWeek)))

/-- Run a list of submission requests `(email, name)` in order against the
server, all at the same instant `now`, collecting each outcome — the
sequential interleaving of N `submit` calls (spec §5: reservation+insertion
is one atomic unit, so a concurrent execution is equivalent to running whole
submissions in some order). -/
def runSubmits (st : ServerState) (reqs : List (String × String))
    (now : Date) : List SubmitResult × ServerState :=
  match reqs with
  | [] => ([], st)
  | (email, sampleName) :: rest =>
    let r := submit st email sampleName none now
    let rec_ := runSubmits r.2 rest now
    (r.1 :: rec_.1, rec_.2)

/-- Outcome is `accepted`. -/
def isAccepted : SubmitResult → Bool
  | .accepted _ => true
  | _ => false

/-- Outcome is `rejectedCapacity`. -/
def isRejectedCapacity : SubmitResult → Bool
  | .rejectedCapacity => true
  | _ => false

/-- The ordinals of the committed samples of a week bucket, most recent
first. -/
def ordinalsInWeek (samples : List Sample) (w : Nat × Nat) : List Nat :=
  (samples.filter (fun s => inWeek s w)).map (fun s => s.ordinal)

/-- A response is not an error carrying a status other than 401. -/
def errorsOnly401 (r : Response) : Bool :=
  match r with
  | .error _ c => c == 401
  | _ => true

/-- Fixture: a date in ISO week 5 of 2024. -/
def d2024w5 : Date := { t := 0, isoYear := 2024, isoWeek := 5 }

/-- Fixture: empty server with a 1×2 plate (weekly capacity 2). -/
def stEmpty12 : ServerState :=
  { samples := [], settings := { plate_n_rows := 1, plate_n_cols := 2 } }

/-- Fixture: empty server with a 1×1 plate (weekly capacity 1). -/
def stEmpty11 : ServerState :=
  { samples := [], settings := { plate_n_rows := 1, plate_n_cols := 1 } }

/-- Fixture: two samples committed in week 2024-05 under capacity 2. -/
def stTwoCommitted : ServerState :=
  (submit (submit stEmpty12 "alice@lab" "s1" none d2024w5).2
    "bob@lab" "s2" none d2024w5).2

/-- Fixture: the same two committed samples after an administrator lowers the
plate to 1×1 (capacity 1) mid-week — spec scenario B followed by the lowering
step. -/
def stLowered : ServerState :=
  set_current_settings stTwoCommitted { plate_n_rows := 1, plate_n_cols := 1 }

/-- Fixture: a non-admin activated user. -/
def aliceUser : User :=
  { email := "alice@lab", password := "pw", activated := true, is_admin := false }

/-- Fixture: an admin user. -/
def rootUser : User :=
  { email := "root@lab", password := "pw", activated := true, is_admin := true }

/-- Fixture: a sample row owned by bob, with a reference sequence. -/
def bobSample : Sample :=
  { primary_key := "2024-05-001"
    email := "bob@lab"
    name := "plasmid"
    date := d2024w5
    ordinal := 1
    reference_sequence_description := some "ref" }

/-! ## Helper lemmas about `submit` and week counting -/

theorem inWeek_newSample (email sampleName : String) (file : Option Bool)
    (now : Date) (ordinal : Nat) :
    inWeek (newSample email sampleName file now ordinal) (bucketFor now) = true := by
  simp [inWeek, newSample, bucketFor]

theorem newSample_ordinal (email sampleName : String) (file : Option Bool)
    (now : Date) (ordinal : Nat) :
    (newSample email sampleName file now ordinal).ordinal = ordinal := rfl

theorem count_cons_inWeek (s : Sample) (l : List Sample) (w : Nat × Nat)
    (h : inWeek s w = true) :
    count_samples_in_week (s :: l) w = count_samples_in_week l w + 1 := by
  simp [count_samples_in_week, List.filter_cons, h]

theorem ordinals_cons_inWeek (s : Sample) (l : List Sample) (w : Nat × Nat)
    (h : inWeek s w = true) :
    ordinalsInWeek (s :: l) w = s.ordinal :: ordinalsInWeek l w := by
  simp [ordinalsInWeek, List.filter_cons, h]

theorem range'_one_reverse_succ (k : Nat) :
    (List.range' 1 (k + 1)).reverse = (k + 1) :: (List.range' 1 k).reverse := by
  rw [List.range'_concat]
  simp [Nat.add_comm]

/-- Case analysis of one submission: either nothing was persisted and the
state is unchanged, or there was room, the outcome is committed, and exactly
the new sample with ordinal `count+1` was prepended. -/
theorem submit_cases (st : ServerState) (email name : String)
    (file : Option Bool) (now : Date) :
    (isCommitted (submit st email name file now).1 = false
      ∧ (submit st email name file now).2 = st)
    ∨ (count_samples_in_week st.samples (bucketFor now) < capacity st.settings
      ∧ isCommitted (submit st email name file now).1 = true
      ∧ (submit st email name file now).2 =
          { st with samples :=
              (newSample email name file now
                (count_samples_in_week st.samples (bucketFor now) + 1)
                :: st.samples) }) := by
  unfold submit
  by_cases h1 : email = "" ∨ name = ""
  · left
    simp [h1, isCommitted]
  · rw [if_neg h1]
    by_cases h2 : capacity st.settings
        ≤ count_samples_in_week st.samples (bucketFor now)
    · left
      simp [h2, isCommitted]
    · right
      refine ⟨by omega, ?_⟩
      simp only [if_neg h2]
      cases file with
      | none => simp [isCommitted]
      | some ok => cases ok <;> simp [isCommitted]

/-- A submission never changes the settings. -/
theorem submit_settings_eq (st : ServerState) (email name : String)
    (file : Option Bool) (now : Date) :
    (submit st email name file now).2.settings = st.settings := by
  rcases submit_cases st email name file now with ⟨_, h⟩ | ⟨_, _, h⟩ <;>
    rw [h]

/-- With valid inputs, a submission against a full (or over-full) week is
rejected with `rejectedCapacity` and the state is unchanged. -/
theorem submit_rejects_full (st : ServerState) (email name : String)
    (file : Option Bool) (now : Date) (he : email ≠ "") (hn : name ≠ "")
    (hfull : capacity st.settings
      ≤ count_samples_in_week st.samples (bucketFor now)) :
    submit st email name file now = (.rejectedCapacity, st) := by
  unfold submit
  rw [if_neg (by simp [he, hn])]
  simp only [if_pos hfull]

/-- With valid inputs and room left, a submission without a file is accepted
and commits the new sample with ordinal `count+1`. -/
theorem submit_accepts (st : ServerState) (email name : String) (now : Date)
    (he : email ≠ "") (hn : name ≠ "")
    (hroom : count_samples_in_week st.samples (bucketFor now)
      < capacity st.settings) :
    submit st email name none now =
      (.accepted (newSample email name none now
          (count_samples_in_week st.samples (bucketFor now) + 1)),
        { st with samples :=
            (newSample email name none now
              (count_samples_in_week st.samples (bucketFor now) + 1)
              :: st.samples) }) := by
  unfold submit
  rw [if_neg (by simp [he, hn])]
  simp only [if_neg (by omega :
    ¬ capacity st.settings ≤ count_samples_in_week st.samples (bucketFor now))]

/-- A committed submission increments the week's count by one. -/
theorem submit_committed_count (st : ServerState) (email name : String)
    (file : Option Bool) (now : Date)
    (h : isCommitted (submit st email name file now).1 = true) :
    count_samples_in_week (submit st email name file now).2.samples
        (bucketFor now)
      = count_samples_in_week st.samples (bucketFor now) + 1
    ∧ count_samples_in_week st.samples (bucketFor now)
      < capacity st.settings := by
  rcases submit_cases st email name file now with ⟨hf, _⟩ | ⟨hroom, _, hst⟩
  · rw [h] at hf
    exact absurd hf (by simp)
  · refine ⟨?_, hroom⟩
    rw [hst]
    exact count_cons_inWeek _ _ _ (inWeek_newSample _ _ _ _ _)

theorem filter_acc_cons_acc (s : Sample) (l : List SubmitResult) :
    ((SubmitResult.accepted s :: l).filter (fun r => isAccepted r)).length
      = (l.filter (fun r => isAccepted r)).length + 1 := by
  simp [List.filter_cons, isAccepted]

theorem filter_rej_cons_acc (s : Sample) (l : List SubmitResult) :
    ((SubmitResult.accepted s :: l).filter
        (fun r => isRejectedCapacity r)).length
      = (l.filter (fun r => isRejectedCapacity r)).length := by
  simp [List.filter_cons, isRejectedCapacity]

theorem filter_acc_cons_rej (l : List SubmitResult) :
    ((SubmitResult.rejectedCapacity :: l).filter
        (fun r => isAccepted r)).length
      = (l.filter (fun r => isAccepted r)).length := by
  simp [List.filter_cons, isAccepted]

theorem filter_rej_cons_rej (l : List SubmitResult) :
    ((SubmitResult.rejectedCapacity :: l).filter
        (fun r => isRejectedCapacity r)).length
      = (l.filter (fun r => isRejectedCapacity r)).length + 1 := by
  simp [List.filter_cons, isRejectedCapacity]

/-- Invariant of a sequential run of submissions at one instant: the settings
are unchanged; the week's count saturates at capacity; the number of accepted
outcomes is `min N (C - k)`; the number of capacity rejections is the rest;
and the week's committed ordinals stay exactly `1..count` (most recent
first). -/
theorem runSubmits_spec (now : Date) (reqs : List (String × String)) :
    ∀ st : ServerState,
    (∀ r ∈ reqs, r.1 ≠ "" ∧ r.2 ≠ "") →
    count_samples_in_week st.samples (bucketFor now) ≤ capacity st.settings →
    (runSubmits st reqs now).2.settings = st.settings
    ∧ count_samples_in_week (runSubmits st reqs now).2.samples (bucketFor now)
        = min (count_samples_in_week st.samples (bucketFor now) + reqs.length)
            (capacity st.settings)
    ∧ ((runSubmits st reqs now).1.filter (fun r => isAccepted r)).length
        = min reqs.length
            (capacity st.settings
              - count_samples_in_week st.samples (bucketFor now))
    ∧ ((runSubmits st reqs now).1.filter
          (fun r => isRejectedCapacity r)).length
        = reqs.length
          - min reqs.length
              (capacity st.settings
                - count_samples_in_week st.samples (bucketFor now))
    ∧ (ordinalsInWeek st.samples (bucketFor now)
          = (List.range' 1
              (count_samples_in_week st.samples (bucketFor now))).reverse →
        ordinalsInWeek (runSubmits st reqs now).2.samples (bucketFor now)
          = (List.range' 1
              (min (count_samples_in_week st.samples (bucketFor now)
                  + reqs.length)
                (capacity st.settings))).reverse) := by
  induction reqs with
  | nil =>
    intro st _ hle
    refine ⟨rfl, by simp [runSubmits]; omega, by simp [runSubmits],
      by simp [runSubmits], ?_⟩
    intro hord
    show ordinalsInWeek st.samples (bucketFor now) = _
    rw [hord]
    congr 2
    simp only [List.length_nil, Nat.add_zero]
    omega
  | cons hd tl ih =>
    intro st hnames hle
    obtain ⟨e, n⟩ := hd
    have hen : e ≠ "" ∧ n ≠ "" := hnames (e, n) (by simp)
    have htl : ∀ r ∈ tl, r.1 ≠ "" ∧ r.2 ≠ "" := by
      intro r hr
      exact hnames r (by simp [hr])
    by_cases hroom : count_samples_in_week st.samples (bucketFor now)
        < capacity st.settings
    · -- the head submission is accepted
      have hsub := submit_accepts st e n now hen.1 hen.2 hroom
      have hrun : runSubmits st ((e, n) :: tl) now
          = ((submit st e n none now).1
              :: (runSubmits (submit st e n none now).2 tl now).1,
            (runSubmits (submit st e n none now).2 tl now).2) := rfl
      set ns := newSample e n none now
        (count_samples_in_week st.samples (bucketFor now) + 1) with hns
      have hstep2 : (submit st e n none now).2
          = { st with samples := (ns :: st.samples) } := by rw [hsub]
      have hstep1 : (submit st e n none now).1 = .accepted ns := by rw [hsub]
      have hsets : ({ st with samples := (ns :: st.samples) }
          : ServerState).settings = st.settings := rfl
      have hcount2 : count_samples_in_week
            ({ st with samples := (ns :: st.samples) } : ServerState).samples
            (bucketFor now)
          = count_samples_in_week st.samples (bucketFor now) + 1 :=
        count_cons_inWeek _ _ _ (inWeek_newSample _ _ _ _ _)
      obtain ⟨ihs, ihc, iha, ihr, iho⟩ :=
        ih { st with samples := (ns :: st.samples) } htl
          (by rw [hcount2, hsets]; omega)
      rw [hcount2, hsets] at ihc iha ihr iho
      rw [hsets] at ihs
      refine ⟨?_, ?_, ?_, ?_, ?_⟩
      · rw [hrun, hstep2]
        exact ihs
      · rw [hrun, hstep2, ihc]
        simp only [List.length_cons]
        omega
      · rw [hrun, hstep2, hstep1, filter_acc_cons_acc, iha]
        simp only [List.length_cons]
        omega
      · rw [hrun, hstep2, hstep1, filter_rej_cons_acc, ihr]
        simp only [List.length_cons]
        omega
      · intro hord
        rw [hrun, hstep2]
        have hord2 : ordinalsInWeek
              ({ st with samples := (ns :: st.samples) } : ServerState).samples
              (bucketFor now)
            = (List.range' 1
                (count_samples_in_week st.samples (bucketFor now) + 1)).reverse := by
          rw [show ({ st with samples := (ns :: st.samples) }
              : ServerState).samples = ns :: st.samples from rfl]
          rw [ordinals_cons_inWeek _ _ _ (inWeek_newSample _ _ _ _ _), hord,
            range'_one_reverse_succ]
          rfl
        rw [iho hord2]
        congr 2
        simp only [List.length_cons]
        omega
    · -- the head submission is rejected: the week is already full
      have hfull : capacity st.settings
          ≤ count_samples_in_week st.samples (bucketFor now) := by omega
      have hsub := submit_rejects_full st e n none now hen.1 hen.2 hfull
      have hrun : runSubmits st ((e, n) :: tl) now
          = ((submit st e n none now).1
              :: (runSubmits (submit st e n none now).2 tl now).1,
            (runSubmits (submit st e n none now).2 tl now).2) := rfl
      have hstep2 : (submit st e n none now).2 = st := by rw [hsub]
      have hstep1 : (submit st e n none now).1 = .rejectedCapacity := by
        rw [hsub]
      obtain ⟨ihs, ihc, iha, ihr, iho⟩ := ih st htl hle
      refine ⟨?_, ?_, ?_, ?_, ?_⟩
      · rw [hrun, hstep2]
        exact ihs
      · rw [hrun, hstep2, ihc]
        simp only [List.length_cons]
        omega
      · rw [hrun, hstep2, hstep1, filter_acc_cons_rej, iha]
        simp only [List.length_cons]
        omega
      · rw [hrun, hstep2, hstep1, filter_rej_cons_rej, ihr]
        simp only [List.length_cons]
        omega
      · intro hord
        rw [hrun, hstep2, iho hord]
        congr 2
        simp only [List.length_cons]
        omega

/-! ## Claim theorems -/

/-- Claim C1: for every week bucket, the count of committed samples never
exceeds the capacity `plateRows * plateCols` as evaluated from the settings
in force at the reservation instant — every submission that commits a sample
leaves its week's count at most the capacity it was checked against — and a
valid submission arriving when the count already equals (or exceeds) that
capacity is rejected with `CapacityExceeded` and persists nothing: the state
is returned unchanged. -/
theorem weekly_capacity_invariant :
    (∀ (st : ServerState) (email sampleName : String) (file : Option Bool)
        (now : Date),
      isCommitted (submit st email sampleName file now).1 = true →
      count_samples_in_week (submit st email sampleName file now).2.samples
          (bucketFor now)
        ≤ capacity st.settings)
    ∧ (∀ (st : ServerState) (email sampleName : String) (file : Option Bool)
        (now : Date),
      email ≠ "" → sampleName ≠ "" →
      capacity st.settings
        ≤ count_samples_in_week st.samples (bucketFor now) →
      submit st email sampleName file now = (.rejectedCapacity, st)) := by
  constructor
  · intro st email sampleName file now h
    obtain ⟨hc, hroom⟩ := submit_committed_count st email sampleName file now h
    omega
  · intro st email sampleName file now he hn hfull
    exact submit_rejects_full st email sampleName file now he hn hfull

/-- Witness for `weekly_capacity_invariant` at concrete inputs: one committed
submission against capacity 2, and one rejection against a full week. -/
theorem weekly_capacity_invariant_witness :
    count_samples_in_week
        (submit stEmpty12 "alice@lab" "s1" none d2024w5).2.samples
        (bucketFor d2024w5)
      ≤ capacity stEmpty12.settings
    ∧ submit stLowered "carol@lab" "s3" none d2024w5
        = (.rejectedCapacity, stLowered) := by
  constructor
  · exact weekly_capacity_invariant.1 stEmpty12 "alice@lab" "s1" none d2024w5
      (by decide)
  · exact weekly_capacity_invariant.2 stLowered "carol@lab" "s3" none d2024w5
      (by decide) (by decide) (by decide)

/-- Claim C2 counterexample: run two committed submissions in week 2024-05
under a 1×2 plate, then lower the plate to 1×1 mid-week; the `/remaining`
endpoint now returns −1.  It does not clamp at 0. -/
theorem remaining_goes_negative :
    remaining stLowered d2024w5 = -1 ∧ remaining stLowered d2024w5 < 0 := by
  decide

/-- Claim C2 (amended): `/remaining` returns the current plate capacity minus
the count of samples committed in the current week as a plain integer
difference — with no clamping, so it is negative exactly when settings are
lowered mid-week below the committed count — and it decreases by exactly one
on each submission that commits a sample. -/
theorem remaining_formula_and_decrement (st : ServerState)
    (email sampleName : String) (file : Option Bool) (now : Date)
    (h : isCommitted (submit st email sampleName file now).1 = true) :
    remaining (submit st email sampleName file now).2 now
        = remaining st now - 1
    ∧ remaining st now
      = (capacity st.settings : Int)
        - (count_samples_in_week st.samples (bucketFor now) : Int) := by
  refine ⟨?_, rfl⟩
  obtain ⟨hc, _⟩ := submit_committed_count st email sampleName file now h
  unfold remaining
  rw [hc, submit_settings_eq]
  push_cast
  ring

/-- Witness for `remaining_formula_and_decrement` at a concrete committed
submission. -/
theorem remaining_formula_and_decrement_witness :
    remaining (submit stEmpty12 "alice@lab" "s1" none d2024w5).2 d2024w5
        = remaining stEmpty12 d2024w5 - 1
    ∧ remaining stEmpty12 d2024w5
      = (capacity stEmpty12.settings : Int)
        - (count_samples_in_week stEmpty12.samples (bucketFor d2024w5) : Int) :=
  remaining_formula_and_decrement stEmpty12 "alice@lab" "s1" none d2024w5
    (by decide)

/-- Claim C3: N submissions against an empty week with capacity C, where
N > C, yield exactly C `Accepted` outcomes, N − C `Rejected(CapacityExceeded)`
outcomes, and no duplicate ordinals among the committed samples of the week.
The spec mandates that reservation+insertion is a single atomic unit with
respect to other reservations for the same bucket, so a concurrent execution
is equivalent to running the whole submissions in some serial order; the
statement holds for every such order (`runSubmits` runs an arbitrary request
list sequentially). -/
theorem concurrent_submissions_fill_capacity (st : ServerState)
    (reqs : List (String × String)) (now : Date)
    (hempty : count_samples_in_week st.samples (bucketFor now) = 0)
    (hnames : ∀ r ∈ reqs, r.1 ≠ "" ∧ r.2 ≠ "")
    (hN : capacity st.settings < reqs.length) :
    ((runSubmits st reqs now).1.filter (fun r => isAccepted r)).length
        = capacity st.settings
    ∧ ((runSubmits st reqs now).1.filter
          (fun r => isRejectedCapacity r)).length
        = reqs.length - capacity st.settings
    ∧ (ordinalsInWeek (runSubmits st reqs now).2.samples
        (bucketFor now)).Nodup := by
  obtain ⟨hs, hc, ha, hr, ho⟩ := runSubmits_spec now reqs st hnames (by omega)
  refine ⟨?_, ?_, ?_⟩
  · rw [ha]
    omega
  · rw [hr]
    omega
  · have hnil : st.samples.filter (fun s => inWeek s (bucketFor now)) = [] :=
      List.length_eq_zero.mp hempty
    have hbase : ordinalsInWeek st.samples (bucketFor now)
        = (List.range' 1
            (count_samples_in_week st.samples (bucketFor now))).reverse := by
      unfold ordinalsInWeek
      rw [hnil, hempty]
      simp
    rw [ho hbase]
    exact List.nodup_reverse.mpr (List.nodup_range' _ _ _ Nat.one_pos)

/-- Witness for `concurrent_submissions_fill_capacity`: two submissions
against an empty week of capacity one give one acceptance, one capacity
rejection, and distinct ordinals. -/
theorem concurrent_submissions_fill_capacity_witness :
    ((runSubmits stEmpty11 [("alice@lab", "s1"), ("bob@lab", "s2")]
          d2024w5).1.filter (fun r => isAccepted r)).length
        = capacity stEmpty11.settings
    ∧ ((runSubmits stEmpty11 [("alice@lab", "s1"), ("bob@lab", "s2")]
          d2024w5).1.filter (fun r => isRejectedCapacity r)).length
        = [("alice@lab", "s1"), ("bob@lab", "s2")].length
          - capacity stEmpty11.settings
    ∧ (ordinalsInWeek
        (runSubmits stEmpty11 [("alice@lab", "s1"), ("bob@lab", "s2")]
          d2024w5).2.samples (bucketFor d2024w5)).Nodup :=
  concurrent_submissions_fill_capacity stEmpty11
    [("alice@lab", "s1"), ("bob@lab", "s2")] d2024w5
    (by decide) (by decide) (by decide)

/-- Claim C4 counterexample: a submission with an empty sample name through
the `/addsample` boundary is answered with the capacity-exhaustion response
`("No more samples available this week.", 401)` — not with a distinct
`Rejected(InvalidInput)` — because the handler maps every `None` from
`add_new_sample` to that single message. -/
theorem add_sample_empty_name_reported_as_capacity :
    add_sample_route stEmpty12 "alice@lab" "" none d2024w5
      = .error "No more samples available this week." 401 := by
  decide

/-- Claim C4 (amended): every submission through the `/addsample` boundary
terminates in exactly one of two boundary outcomes: success carrying the new
sample, or the single 401 error body `"No more samples available this
week."`.  Invalid input and storage failures are not surfaced distinctly at
the boundary — any failed submission is reported with the
capacity-exhaustion message. -/
theorem add_sample_boundary_two_outcomes (st : ServerState)
    (email sampleName : String) (file : Option Bool) (now : Date) :
    (∃ s, add_sample_route st email sampleName file now = .okSample s)
    ∨ add_sample_route st email sampleName file now
        = .error "No more samples available this week." 401 := by
  unfold add_sample_route add_sample_handler add_new_sample
  rcases h : submit st email sampleName file now with ⟨r, st2⟩
  cases r <;> simp

/-- Claim C5: the fasta path built by the `/reference_sequence` handler for a
sample coincides with the spec's exposed convention
`{dataRoot}/{isoYear}/{isoWeek}/reference/{primaryKey}_{name}.fasta`, where
`isoYear` and `isoWeek` are the ISO calendar year and week of the sample's
submission date. -/
theorem reference_path_follows_convention (data_path : String) (s : Sample) :
    reference_filename data_path s
      = specReferencePath data_path s.date.isoYear s.date.isoWeek
          s.primary_key s.name := rfl

/-- Claim C6: the `/reference_sequence` handler returns stored file bytes if
and only if the requested sample exists under the caller's visibility, its
reference-sequence description is set, and a file exists at the conventional
path; and every other outcome is a 401 error response (the handler is a pure
function of the server state, so no side effects occur either way). -/
theorem reference_sequence_fetch_iff (data_path : String)
    (samples : List Sample) (files : DiskFiles) (caller : User)
    (primary_key : String) :
    ((∃ bytes, reference_sequence data_path samples files caller primary_key
        = .okFile bytes)
      ↔ ∃ s, lookupSample samples primary_key caller.email caller.is_admin
            = some s
          ∧ s.reference_sequence_description.isSome = true
          ∧ ∃ fileBytes, files.lookup (reference_filename data_path s)
              = some fileBytes)
    ∧ ((∃ bytes, reference_sequence data_path samples files caller primary_key
          = .okFile bytes)
      ∨ (∃ msg, reference_sequence data_path samples files caller primary_key
          = .error msg 401)) := by
  unfold reference_sequence
  cases h1 : lookupSample samples primary_key caller.email caller.is_admin with
  | none => simp
  | some s =>
    cases h2 : s.reference_sequence_description with
    | none => simp [h2]
    | some d =>
      cases h3 : files.lookup (reference_filename data_path s) with
      | none => simp [h2, h3]
      | some bytes => simp [h2, h3]

/-- Claim C7: for every caller, each of the caller's committed samples is
placed in exactly one of the two lists returned by `/samples`:
`current_samples` iff its date is at or after the start of the current week,
`previous_samples` iff it is strictly before; the two lists partition the
caller's samples with no overlap and no omission. -/
theorem samples_lists_partition (allSamples : List Sample)
    (callerEmail : String) (startOfWeek : Int) (s : Sample)
    (hs : s ∈ allSamples) (howner : s.email = callerEmail) :
    (s ∈ (samples_handler allSamples callerEmail startOfWeek).1
      ↔ startOfWeek ≤ s.date.t)
    ∧ (s ∈ (samples_handler allSamples callerEmail startOfWeek).2
      ↔ s.date.t < startOfWeek)
    ∧ (s ∈ (samples_handler allSamples callerEmail startOfWeek).1
      ↔ ¬ s ∈ (samples_handler allSamples callerEmail startOfWeek).2) := by
  unfold samples_handler
  have h1 : s ∈ List.insertionSort dateDesc
        (allSamples.filter
          (fun x => x.email == callerEmail && startOfWeek ≤ x.date.t))
      ↔ startOfWeek ≤ s.date.t := by
    rw [(List.perm_insertionSort dateDesc _).mem_iff, List.mem_filter]
    simp [hs, howner]
  have h2 : s ∈ List.insertionSort dateDesc
        (allSamples.filter
          (fun x => x.email == callerEmail && x.date.t < startOfWeek))
      ↔ s.date.t < startOfWeek := by
    rw [(List.perm_insertionSort dateDesc _).mem_iff, List.mem_filter]
    simp [hs, howner]
  refine ⟨h1, h2, ?_⟩
  rw [h1, h2]
  omega

/-- Witness for `samples_lists_partition` at a concrete owner and sample. -/
theorem samples_lists_partition_witness :
    (bobSample ∈ (samples_handler [bobSample] "bob@lab" 0).1
      ↔ (0 : Int) ≤ bobSample.date.t)
    ∧ (bobSample ∈ (samples_handler [bobSample] "bob@lab" 0).2
      ↔ bobSample.date.t < 0)
    ∧ (bobSample ∈ (samples_handler [bobSample] "bob@lab" 0).1
      ↔ ¬ bobSample ∈ (samples_handler [bobSample] "bob@lab" 0).2) :=
  samples_lists_partition [bobSample] "bob@lab" 0 bobSample
    (by decide) (by decide)

/-- Claim C8: the `/reference_sequence` lookup is owner-scoped for non-admin
callers: a non-admin request for a key every holder of which belongs to a
different owner is answered exactly like a request for a nonexistent key
(`"Sample not found"`, 401), while the admin lookup is by primary key alone,
ignoring ownership. -/
theorem reference_sequence_owner_scoping (data_path : String)
    (samples : List Sample) (files : DiskFiles) (caller : User)
    (primary_key : String)
    (hna : caller.is_admin = false)
    (hother : ∀ s ∈ samples, s.primary_key = primary_key
      → s.email ≠ caller.email) :
    reference_sequence data_path samples files caller primary_key
        = .error "Sample not found" 401
    ∧ reference_sequence data_path [] files caller primary_key
        = .error "Sample not found" 401
    ∧ ∀ adminEmail : String,
        lookupSample samples primary_key adminEmail true
          = samples.find? (fun s => s.primary_key == primary_key) := by
  have hnone : lookupSample samples primary_key caller.email caller.is_admin
      = none := by
    rw [hna]
    unfold lookupSample
    rw [List.find?_eq_none]
    intro s hsin
    simp only [Bool.false_or, Bool.and_eq_true, beq_iff_eq]
    intro hcontra
    exact hother s hsin hcontra.1 hcontra.2
  refine ⟨?_, rfl, ?_⟩
  · unfold reference_sequence
    rw [hnone]
  · intro adminEmail
    unfold lookupSample
    simp only [Bool.true_or, Bool.and_true]

/-- Witness for `reference_sequence_owner_scoping`: alice (non-admin)
requesting bob's sample key is told `"Sample not found"`. -/
theorem reference_sequence_owner_scoping_witness :
    reference_sequence "/circuit_seq_data" [bobSample] [] aliceUser
        "2024-05-001"
        = .error "Sample not found" 401
    ∧ reference_sequence "/circuit_seq_data" [] [] aliceUser "2024-05-001"
        = .error "Sample not found" 401
    ∧ ∀ adminEmail : String,
        lookupSample [bobSample] "2024-05-001" adminEmail true
          = [bobSample].find? (fun s => s.primary_key == "2024-05-001") :=
  reference_sequence_owner_scoping "/circuit_seq_data" [bobSample] []
    aliceUser "2024-05-001" (by decide) (by decide)

/-- Claim C9: every error response produced by the modelled endpoints carries
HTTP status 401 — including failures that are not authentication errors:
unknown sample key, sample without a reference sequence, missing fasta file,
weekly capacity exhaustion, failed signup, and non-admin access to the admin
routes. -/
theorem all_error_responses_are_401 :
    (∀ (users : List User) (email pw : String),
      errorsOnly401 (login users email pw) = true)
    ∧ (∀ ok : Bool, errorsOnly401 (signup ok) = true)
    ∧ (∀ r : Option Sample, errorsOnly401 (add_sample_handler r) = true)
    ∧ (∀ (dp : String) (samples : List Sample) (files : DiskFiles)
        (caller : User) (pk : String),
      errorsOnly401 (reference_sequence dp samples files caller pk) = true)
    ∧ (∀ (st : ServerState) (caller : User) (isPost ok : Bool),
      (admin_settings st caller isPost ok).all errorsOnly401 = true)
    ∧ (∀ (users : List User) (caller : User),
      errorsOnly401 (admin_all_users users caller) = true)
    ∧ (∀ (allSamples : List Sample) (caller : User) (startOfWeek : Int),
      errorsOnly401 (admin_all_samples allSamples caller startOfWeek)
        = true) := by
  refine ⟨?_, ?_, ?_, ?_, ?_, ?_, ?_⟩
  · intro users email pw
    unfold login
    split
    · rfl
    · split
      · rfl
      · split <;> rfl
  · intro ok
    unfold signup
    split <;> rfl
  · intro r
    cases r <;> rfl
  · intro dp samples files caller pk
    unfold reference_sequence
    split
    · rfl
    · split
      · rfl
      · split <;> rfl
  · intro st caller isPost ok
    unfold admin_settings
    split
    · rfl
    · split
      · split <;> rfl
      · rfl
  · intro users caller
    unfold admin_all_users
    split <;> rfl
  · intro allSamples caller startOfWeek
    unfold admin_all_samples
    split <;> rfl

/-- Claim C10: a POST to `/admin/settings` by an admin whose
`set_current_settings` call fails produces no response value at all — the
failure branch builds the `"Failed to update settings"` body but does not
return it, so control falls off the end of the handler (`none`), and in
particular the 401 error is never returned. -/
theorem admin_settings_failed_update_returns_nothing (st : ServerState)
    (caller : User) (hadmin : caller.is_admin = true) :
    admin_settings st caller true false = none
    ∧ admin_settings st caller true false
        ≠ some (.error "Failed to update settings" 401) := by
  unfold admin_settings
  rw [hadmin]
  exact ⟨rfl, by simp⟩

/-- Witness for `admin_settings_failed_update_returns_nothing` at a concrete
admin caller. -/
theorem admin_settings_failed_update_returns_nothing_witness :
    admin_settings stEmpty12 rootUser true false = none
    ∧ admin_settings stEmpty12 rootUser true false
        ≠ some (.error "Failed to update settings" 401) :=
  admin_settings_failed_update_returns_nothing stEmpty12 rootUser (by decide)

end CircuitSeq
